import Mathlib

/-!
Verification of the flyteadmin serve entrypoint, the execution admin-service
handlers, and the resource-attribute manager, against their specification.

Sources embedded:
- `src/unnamed/part_000` (package entrypoints: `serveCmd`, `newGRPCServer`,
  `GetHandleOpenapiSpec`, `newHTTPServer`, `serveGatewayInsecure`,
  `grpcHandlerFunc`, `serveGatewaySecure`)
- `src/pkg/rpc/adminservice/execution.go` (the seven execution endpoints)
- the resource manager exercised by
  `src/pkg/manager/impl/resources/resource_manager_test.go`
-/

namespace FlyteAdmin

/-! ### Go standard-library helpers used by the source -/

/-- Embeds Go `strings.Contains(s, pat)` on rune lists: true when `pat`
occurs as a contiguous substring of `s` (the empty pattern always matches). -/
def listContains : List Char → List Char → Bool
  | [], pat => pat.isEmpty
  | s@(_ :: rest), pat => pat.isPrefixOf s || listContains rest pat

/-- Embeds Go `strings.Contains` on strings. -/
def strContains (s pat : String) : Bool :=
  listContains s.toList pat.toList

/-- Characterisation of `listContains`: it decides occurrence of `pat` as a
contiguous infix of `s`. -/
theorem listContains_iff_exists (s pat : List Char) :
    listContains s pat = true ↔ ∃ l r, s = l ++ pat ++ r := by
  induction s with
  | nil =>
    simp only [listContains, List.isEmpty_iff]
    constructor
    · rintro rfl
      exact ⟨[], [], rfl⟩
    · rintro ⟨l, r, h⟩
      rcases List.append_eq_nil.mp h.symm with ⟨h1, h2⟩
      exact (List.append_eq_nil.mp h1).2
  | cons a rest ih =>
    simp only [listContains, Bool.or_eq_true, List.isPrefixOf_iff_prefix, ih]
    constructor
    · rintro (⟨t, ht⟩ | ⟨l, r, hr⟩)
      · exact ⟨[], t, by simpa using ht.symm⟩
      · exact ⟨a :: l, r, by simp [hr]⟩
    · rintro ⟨l, r, h⟩
      cases l with
      | nil =>
        left
        exact ⟨r, by simpa using h.symm⟩
      | cons b l2 =>
        right
        refine ⟨l2, r, ?_⟩
        have := h
        simp only [List.cons_append] at this
        exact (List.cons.injEq .. ▸ this).2

/-! ### Secure-mode demultiplexer (`grpcHandlerFunc`, part_000 lines 231-240) -/

/-- An inbound HTTP request as seen by the demultiplexer: the protocol major
version (`r.ProtoMajor`) and the value of the Content-Type header
(`r.Header.Get` of Content-Type). -/
structure HttpRequest where
  protoMajor : Nat
  contentType : String
deriving DecidableEq

/-- The two handlers a request can be routed to on the multiplexed listener. -/
inductive Route
  | grpcServer
  | otherHandler
deriving DecidableEq

/-- Embeds `grpcHandlerFunc` (part_000 lines 231-240): delegates to the gRPC
server on HTTP/2 requests whose Content-Type contains the string
application/grpc, and to the HTTP mux handler otherwise. -/
def grpcHandlerFunc (r : HttpRequest) : Route :=
  if r.protoMajor = 2 && strContains r.contentType "application/grpc" then
    Route.grpcServer
  else
    Route.otherHandler

/-! ### Unary interceptor chain (`newGRPCServer`, part_000 lines 69-96) -/

/-- The unary server interceptors used by `newGRPCServer`, named by role:
`grpc_prometheus.UnaryServerInterceptor` (metrics timing),
`auth.GetAuthenticationCustomMetadataInterceptor` (custom metadata
extraction), `grpcauth.UnaryServerInterceptor` over
`auth.GetAuthenticationInterceptor` (auth verification), and
`auth.AuthenticationLoggingInterceptor` (audit logging). -/
inductive UnaryInterceptor
  | metricsTiming
  | customMetadataExtraction
  | authVerification
  | auditLogging
deriving DecidableEq

/-- Embeds the `chainedUnaryInterceptors` selection inside `newGRPCServer`
(part_000 lines 72-83): with `cfg.Security.UseAuth` the chain is metrics
timing, custom metadata extraction, auth verification, audit logging, in that
order; without it the chain is metrics timing alone. -/
def chainedUnaryInterceptors (useAuth : Bool) : List UnaryInterceptor :=
  if useAuth then
    [UnaryInterceptor.metricsTiming, UnaryInterceptor.customMetadataExtraction,
     UnaryInterceptor.authVerification, UnaryInterceptor.auditLogging]
  else
    [UnaryInterceptor.metricsTiming]

/-- Model of `grpc_middleware.ChainUnaryServer` execution for one call:
interceptors run in list order, each either passes the call on or rejects it;
a rejection stops the chain. Returns the list of interceptors that actually
ran and whether the call went through to the handler. -/
def runChain (passes : UnaryInterceptor → Bool) :
    List UnaryInterceptor → List UnaryInterceptor × Bool
  | [] => ([], true)
  | i :: rest =>
    if passes i then
      let tail := runChain passes rest
      (i :: tail.1, tail.2)
    else
      ([i], false)

/-! ### Execution admin service (`src/pkg/rpc/adminservice/execution.go`) -/

/-- gRPC status codes used by the execution endpoints. -/
inductive Code
  | ok
  | invalidArgument
  | notFound
  | unauthenticated
  | internal
deriving DecidableEq

/-- A gRPC status error as produced by `status.Errorf`. -/
structure StatusError where
  code : Code
  msg : String
deriving DecidableEq

/-- The per-endpoint metric objects of `executionEndpointMetrics`. -/
inductive MetricName
  | create
  | relaunch
  | createEvent
  | get
  | getData
  | list
  | terminate
deriving DecidableEq

/-- The seven execution endpoints of the admin service. -/
inductive Endpoint
  | createExecution
  | relaunchExecution
  | createWorkflowEvent
  | getExecution
  | getExecutionData
  | listExecutions
  | terminateExecution
deriving DecidableEq

/-- Observable side effects of one endpoint call, in the order they happen:
the business-layer manager call, the stopwatch recording of `metric.Time`
(which records only when its closure returns normally), and the
success/error accounting on a metric object. -/
inductive TraceEvent
  | managerInvoked (e : Endpoint)
  | timedCall (m : MetricName)
  | successRecorded (m : MetricName)
  | errorRecorded (m : MetricName)
deriving DecidableEq

/-- Outcome of a business-layer manager call: a response, an error, or a
panic raised during handling. -/
inductive MgrOutcome (α : Type)
  | ok (a : α)
  | err (e : StatusError)
  | panic (msg : String)

/-- Opaque request message for CreateExecution. -/
structure ExecutionCreateRequest where
  dummy : Unit
/-- Opaque request message for RelaunchExecution. -/
structure ExecutionRelaunchRequest where
  dummy : Unit
/-- Opaque request message for CreateWorkflowEvent. -/
structure WorkflowExecutionEventRequest where
  dummy : Unit
/-- Opaque request message for GetExecution. -/
structure WorkflowExecutionGetRequest where
  dummy : Unit
/-- Opaque request message for GetExecutionData. -/
structure WorkflowExecutionGetDataRequest where
  dummy : Unit
/-- Opaque request message for ListExecutions. -/
structure ResourceListRequest where
  dummy : Unit
/-- Opaque request message for TerminateExecution. -/
structure ExecutionTerminateRequest where
  dummy : Unit

/-- Opaque response message for CreateExecution and RelaunchExecution. -/
structure ExecutionCreateResponse where
  dummy : Unit
/-- Opaque response message for CreateWorkflowEvent. -/
structure WorkflowExecutionEventResponse where
  dummy : Unit
/-- Opaque response message for GetExecution. -/
structure Execution where
  dummy : Unit
/-- Opaque response message for GetExecutionData. -/
structure WorkflowExecutionGetDataResponse where
  dummy : Unit
/-- Opaque response message for ListExecutions. -/
structure ExecutionList where
  dummy : Unit
/-- Opaque response message for TerminateExecution. -/
structure ExecutionTerminateResponse where
  dummy : Unit

/-- The business-layer execution manager consumed by the admin service, one
function per RPC. CreateExecution and RelaunchExecution also receive the
`requestedAt` timestamp captured by the handler. -/
structure ExecutionManager where
  createExecution : ExecutionCreateRequest → Nat → MgrOutcome ExecutionCreateResponse
  relaunchExecution : ExecutionRelaunchRequest → Nat → MgrOutcome ExecutionCreateResponse
  createWorkflowEvent : WorkflowExecutionEventRequest → MgrOutcome WorkflowExecutionEventResponse
  getExecution : WorkflowExecutionGetRequest → MgrOutcome Execution
  getExecutionData : WorkflowExecutionGetDataRequest → MgrOutcome WorkflowExecutionGetDataResponse
  listExecutions : ResourceListRequest → MgrOutcome ExecutionList
  terminateExecution : ExecutionTerminateRequest → MgrOutcome ExecutionTerminateResponse

/-- The error message used by every endpoint for a nil request. -/
def nilRequestMsg : String := "Incorrect request, nil requests not allowed"

/-- The InvalidArgument status every endpoint returns on a nil request. -/
def nilRequestError : StatusError :=
  { code := Code.invalidArgument, msg := nilRequestMsg }

/-- Modelled from the spec: `AdminService.interceptPanic` is the per-call
recovery boundary (installed by `defer m.interceptPanic(ctx, request)` in
every endpoint; its body is outside the inspected sources). Per the spec it
catches a panic raised during handling, logs it, and converts it into an
internal-error response instead of propagating. -/
def interceptPanicResult (msg : String) : StatusError :=
  { code := Code.internal, msg := msg }

/-- Modelled from the spec: `util.TransformAndRecordError` (outside the
inspected sources) records an error outcome on the metric object it is
handed and returns the transport error with its classification preserved. -/
def transformAndRecordError (e : StatusError) (m : MetricName) :
    StatusError × TraceEvent :=
  (e, TraceEvent.errorRecorded m)

/-- Result of one endpoint call: the gRPC response or error, together with
the trace of observable side effects in order. -/
def EndpointResult (α : Type) : Type := Except StatusError α × List TraceEvent

/-- Embeds `AdminService.CreateExecution` (execution.go lines 13-30): panic
recovery installed, nil requests rejected with InvalidArgument before the
manager runs, the manager call timed under the `create` metric, errors
recorded on `create`, success recorded on `create`. -/
def createExecution (m : ExecutionManager) (requestedAt : Nat)
    (request : Option ExecutionCreateRequest) :
    EndpointResult ExecutionCreateResponse :=
  match request with
  | none => (Except.error nilRequestError, [])
  | some req =>
    match m.createExecution req requestedAt with
    | MgrOutcome.panic msg =>
      (Except.error (interceptPanicResult msg),
       [TraceEvent.managerInvoked Endpoint.createExecution])
    | MgrOutcome.err e =>
      let t := transformAndRecordError e MetricName.create
      (Except.error t.1,
       [TraceEvent.managerInvoked Endpoint.createExecution,
        TraceEvent.timedCall MetricName.create, t.2])
    | MgrOutcome.ok resp =>
      (Except.ok resp,
       [TraceEvent.managerInvoked Endpoint.createExecution,
        TraceEvent.timedCall MetricName.create,
        TraceEvent.successRecorded MetricName.create])

/-- Embeds `AdminService.RelaunchExecution` (execution.go lines 32-49); same
shape as CreateExecution over the `relaunch` metric. -/
def relaunchExecution (m : ExecutionManager) (requestedAt : Nat)
    (request : Option ExecutionRelaunchRequest) :
    EndpointResult ExecutionCreateResponse :=
  match request with
  | none => (Except.error nilRequestError, [])
  | some req =>
    match m.relaunchExecution req requestedAt with
    | MgrOutcome.panic msg =>
      (Except.error (interceptPanicResult msg),
       [TraceEvent.managerInvoked Endpoint.relaunchExecution])
    | MgrOutcome.err e =>
      let t := transformAndRecordError e MetricName.relaunch
      (Except.error t.1,
       [TraceEvent.managerInvoked Endpoint.relaunchExecution,
        TraceEvent.timedCall MetricName.relaunch, t.2])
    | MgrOutcome.ok resp =>
      (Except.ok resp,
       [TraceEvent.managerInvoked Endpoint.relaunchExecution,
        TraceEvent.timedCall MetricName.relaunch,
        TraceEvent.successRecorded MetricName.relaunch])

/-- Embeds `AdminService.CreateWorkflowEvent` (execution.go lines 51-67) over
the `createEvent` metric. -/
def createWorkflowEvent (m : ExecutionManager)
    (request : Option WorkflowExecutionEventRequest) :
    EndpointResult WorkflowExecutionEventResponse :=
  match request with
  | none => (Except.error nilRequestError, [])
  | some req =>
    match m.createWorkflowEvent req with
    | MgrOutcome.panic msg =>
      (Except.error (interceptPanicResult msg),
       [TraceEvent.managerInvoked Endpoint.createWorkflowEvent])
    | MgrOutcome.err e =>
      let t := transformAndRecordError e MetricName.createEvent
      (Except.error t.1,
       [TraceEvent.managerInvoked Endpoint.createWorkflowEvent,
        TraceEvent.timedCall MetricName.createEvent, t.2])
    | MgrOutcome.ok resp =>
      (Except.ok resp,
       [TraceEvent.managerInvoked Endpoint.createWorkflowEvent,
        TraceEvent.timedCall MetricName.createEvent,
        TraceEvent.successRecorded MetricName.createEvent])

/-- Embeds `AdminService.GetExecution` (execution.go lines 69-85) over the
`get` metric. -/
def getExecution (m : ExecutionManager)
    (request : Option WorkflowExecutionGetRequest) :
    EndpointResult Execution :=
  match request with
  | none => (Except.error nilRequestError, [])
  | some req =>
    match m.getExecution req with
    | MgrOutcome.panic msg =>
      (Except.error (interceptPanicResult msg),
       [TraceEvent.managerInvoked Endpoint.getExecution])
    | MgrOutcome.err e =>
      let t := transformAndRecordError e MetricName.get
      (Except.error t.1,
       [TraceEvent.managerInvoked Endpoint.getExecution,
        TraceEvent.timedCall MetricName.get, t.2])
    | MgrOutcome.ok resp =>
      (Except.ok resp,
       [TraceEvent.managerInvoked Endpoint.getExecution,
        TraceEvent.timedCall MetricName.get,
        TraceEvent.successRecorded MetricName.get])

/-- Embeds `AdminService.GetExecutionData` (execution.go lines 87-103). Note
the source times the manager call under `executionEndpointMetrics.get`
(line 95) while the error path records on `getData` (line 99) and the
success path on `getData` (line 101). -/
def getExecutionData (m : ExecutionManager)
    (request : Option WorkflowExecutionGetDataRequest) :
    EndpointResult WorkflowExecutionGetDataResponse :=
  match request with
  | none => (Except.error nilRequestError, [])
  | some req =>
    match m.getExecutionData req with
    | MgrOutcome.panic msg =>
      (Except.error (interceptPanicResult msg),
       [TraceEvent.managerInvoked Endpoint.getExecutionData])
    | MgrOutcome.err e =>
      let t := transformAndRecordError e MetricName.getData
      (Except.error t.1,
       [TraceEvent.managerInvoked Endpoint.getExecutionData,
        TraceEvent.timedCall MetricName.get, t.2])
    | MgrOutcome.ok resp =>
      (Except.ok resp,
       [TraceEvent.managerInvoked Endpoint.getExecutionData,
        TraceEvent.timedCall MetricName.get,
        TraceEvent.successRecorded MetricName.getData])

/-- Embeds `AdminService.ListExecutions` (execution.go lines 105-121) over
the `list` metric. -/
def listExecutions (m : ExecutionManager)
    (request : Option ResourceListRequest) :
    EndpointResult ExecutionList :=
  match request with
  | none => (Except.error nilRequestError, [])
  | some req =>
    match m.listExecutions req with
    | MgrOutcome.panic msg =>
      (Except.error (interceptPanicResult msg),
       [TraceEvent.managerInvoked Endpoint.listExecutions])
    | MgrOutcome.err e =>
      let t := transformAndRecordError e MetricName.list
      (Except.error t.1,
       [TraceEvent.managerInvoked Endpoint.listExecutions,
        TraceEvent.timedCall MetricName.list, t.2])
    | MgrOutcome.ok resp =>
      (Except.ok resp,
       [TraceEvent.managerInvoked Endpoint.listExecutions,
        TraceEvent.timedCall MetricName.list,
        TraceEvent.successRecorded MetricName.list])

/-- Embeds `AdminService.TerminateExecution` (execution.go lines 123-139)
over the `terminate` metric. -/
def terminateExecution (m : ExecutionManager)
    (request : Option ExecutionTerminateRequest) :
    EndpointResult ExecutionTerminateResponse :=
  match request with
  | none => (Except.error nilRequestError, [])
  | some req =>
    match m.terminateExecution req with
    | MgrOutcome.panic msg =>
      (Except.error (interceptPanicResult msg),
       [TraceEvent.managerInvoked Endpoint.terminateExecution])
    | MgrOutcome.err e =>
      let t := transformAndRecordError e MetricName.terminate
      (Except.error t.1,
       [TraceEvent.managerInvoked Endpoint.terminateExecution,
        TraceEvent.timedCall MetricName.terminate, t.2])
    | MgrOutcome.ok resp =>
      (Except.ok resp,
       [TraceEvent.managerInvoked Endpoint.terminateExecution,
        TraceEvent.timedCall MetricName.terminate,
        TraceEvent.successRecorded MetricName.terminate])

/-! ### Resource-attribute manager

The resource manager implementation is exercised by
`src/pkg/manager/impl/resources/resource_manager_test.go`; the manager body
itself is outside the inspected sources, so the definitions below are
modelled from the spec (section 4.4) with the key shapes asserted by the
test. -/

/-- The composite store key: project, domain, optional workflow, optional
launch plan (empty string when absent), and the resource type discriminator
(`MatchableResource.String()` in the source, an opaque label here). -/
structure ResourceID where
  project : String
  domain : String
  workflow : String
  launchPlan : String
  resourceType : String
deriving DecidableEq

/-- A typed override payload (`admin.MatchingAttributes`): a oneof
discriminated structure; the test exercises the execution-queue variant. -/
inductive MatchingAttributes
  | executionQueueAttributes (tags : List String)
  | taskResourceAttributes (cpu memory : String)
deriving DecidableEq

/-- Serialises one string as a length-prefixed run of character codes. -/
def encodeString (s : String) : List Nat :=
  s.data.length :: s.data.map Char.toNat

/-- Deserialises one length-prefixed string, returning it with the unread
remainder. -/
def decodeString : List Nat → Option (String × List Nat)
  | [] => none
  | n :: rest =>
    if n ≤ rest.length then
      some (String.mk ((rest.take n).map Char.ofNat), rest.drop n)
    else
      none

/-- Serialises a list of strings with a count header. -/
def encodeStringList (l : List String) : List Nat :=
  l.length :: (l.map encodeString).flatten

/-- Deserialises `n` length-prefixed strings. -/
def decodeStrings : Nat → List Nat → Option (List String × List Nat)
  | 0, rest => some ([], rest)
  | n + 1, rest =>
    match decodeString rest with
    | none => none
    | some (s, rest2) =>
      match decodeStrings n rest2 with
      | none => none
      | some (l, rest3) => some (s :: l, rest3)

/-- Modelled from the spec: `proto.Marshal` on a `MatchingAttributes`
message (the wire coder is outside the inspected sources) — a tagged byte
serialisation of the typed override. -/
def marshal : MatchingAttributes → List Nat
  | MatchingAttributes.executionQueueAttributes tags => 0 :: encodeStringList tags
  | MatchingAttributes.taskResourceAttributes cpu memory =>
      1 :: (encodeString cpu ++ encodeString memory)

/-- Modelled from the spec: `proto.Unmarshal` into a `MatchingAttributes`
message, the inverse reading of `marshal`; fails on malformed bytes. -/
def unmarshal : List Nat → Option MatchingAttributes
  | 0 :: rest =>
    (match rest with
     | [] => none
     | n :: body =>
       match decodeStrings n body with
       | some (tags, []) => some (MatchingAttributes.executionQueueAttributes tags)
       | _ => none)
  | 1 :: rest =>
    (match decodeString rest with
     | none => none
     | some (cpu, rest2) =>
       match decodeString rest2 with
       | some (memory, []) => some (MatchingAttributes.taskResourceAttributes cpu memory)
       | _ => none)
  | _ => none

/-- The attribute store consumed through the repository interface: a map
from composite keys to serialised payloads. -/
def Store : Type := ResourceID → Option (List Nat)

/-- The empty store. -/
def Store.empty : Store := fun _ => none

/-- Modelled from the spec: the repository's `CreateOrUpdate` on one key —
an upsert that replaces the payload at exactly that key. -/
def Store.put (s : Store) (id : ResourceID) (b : List Nat) : Store :=
  fun k => if k = id then some b else s k

/-- Errors surfaced by the manager's Get operations. -/
inductive ResourceErr
  | notFound
  | unmarshalFailure
deriving DecidableEq

/-- Reads one key and deserialises its payload. -/
def Store.fetch (s : Store) (id : ResourceID) :
    Except ResourceErr MatchingAttributes :=
  match s id with
  | none => Except.error ResourceErr.notFound
  | some b =>
    match unmarshal b with
    | none => Except.error ResourceErr.unmarshalFailure
    | some v => Except.ok v

/-- The key written by project-domain-level operations: workflow and launch
plan left empty, as asserted by `TestUpdateProjectDomainAttributes`. -/
def projectDomainKey (proj dom rt : String) : ResourceID :=
  { project := proj, domain := dom, workflow := "", launchPlan := "", resourceType := rt }

/-- The key written by workflow-level operations: workflow populated, launch
plan empty, as asserted by `TestUpdateWorkflowAttributes`. -/
def workflowKey (proj dom wf rt : String) : ResourceID :=
  { project := proj, domain := dom, workflow := wf, launchPlan := "", resourceType := rt }

/-- The key used by launch-plan-level operations: all fields populated, as
exercised by `TestGetResource`. -/
def launchPlanKey (proj dom wf lp rt : String) : ResourceID :=
  { project := proj, domain := dom, workflow := wf, launchPlan := lp, resourceType := rt }

/-- Modelled from the spec: `ResourceManager.UpdateProjectDomainAttributes`
serialises the typed override and upserts it under the project-domain key. -/
def updateProjectDomainAttributes (s : Store) (proj dom rt : String)
    (attrs : MatchingAttributes) : Store :=
  Store.put s (projectDomainKey proj dom rt) (marshal attrs)

/-- Modelled from the spec: `ResourceManager.UpdateWorkflowAttributes`
serialises the typed override and upserts it under the workflow key. -/
def updateWorkflowAttributes (s : Store) (proj dom wf rt : String)
    (attrs : MatchingAttributes) : Store :=
  Store.put s (workflowKey proj dom wf rt) (marshal attrs)

/-- Modelled from the spec: the launch-plan-level upsert, all key fields
populated. -/
def updateLaunchPlanAttributes (s : Store) (proj dom wf lp rt : String)
    (attrs : MatchingAttributes) : Store :=
  Store.put s (launchPlanKey proj dom wf lp rt) (marshal attrs)

/-- Modelled from the spec: `ResourceManager.GetProjectDomainAttributes`
fetches the project-domain key by exact match and deserialises. -/
def getProjectDomainAttributes (s : Store) (proj dom rt : String) :
    Except ResourceErr MatchingAttributes :=
  Store.fetch s (projectDomainKey proj dom rt)

/-- Modelled from the spec: `ResourceManager.GetWorkflowAttributes` fetches
the workflow key by exact match and deserialises. -/
def getWorkflowAttributes (s : Store) (proj dom wf rt : String) :
    Except ResourceErr MatchingAttributes :=
  Store.fetch s (workflowKey proj dom wf rt)

/-- Modelled from the spec: the launch-plan-level Get by exact match. -/
def getLaunchPlanAttributes (s : Store) (proj dom wf lp rt : String) :
    Except ResourceErr MatchingAttributes :=
  Store.fetch s (launchPlanKey proj dom wf lp rt)

/-! Round-trip lemmas for the serialisation. -/

/-- Decoding after encoding one string consumes exactly the encoding and
returns the string. -/
theorem decodeString_encodeString (s : String) (tail : List Nat) :
    decodeString (encodeString s ++ tail) = some (s, tail) := by
  cases s with
  | mk data =>
    simp only [encodeString, decodeString, List.cons_append]
    rw [if_pos]
    · have htake : (data.map Char.toNat ++ tail).take data.length = data.map Char.toNat :=
        List.take_left' (by simp)
      have hdrop : (data.map Char.toNat ++ tail).drop data.length = tail :=
        List.drop_left' (by simp)
      simp [htake, hdrop, List.map_map, Function.comp_def]
    · simp

/-- Decoding after encoding a list of strings returns the list. -/
theorem decodeStrings_encode (l : List String) (tail : List Nat) :
    decodeStrings l.length ((l.map encodeString).flatten ++ tail) = some (l, tail) := by
  induction l generalizing tail with
  | nil => simp [decodeStrings]
  | cons s rest ih =>
    simp only [List.map_cons, List.flatten_cons, List.length_cons, List.append_assoc]
    rw [decodeStrings, decodeString_encodeString]
    simp [ih]

/-- The serialisation invariant: unmarshalling a marshalled override yields
the original typed value. -/
theorem unmarshal_marshal (v : MatchingAttributes) :
    unmarshal (marshal v) = some v := by
  cases v with
  | executionQueueAttributes tags =>
    have h := decodeStrings_encode tags []
    simp only [List.append_nil] at h
    simp [marshal, unmarshal, encodeStringList, h]
  | taskResourceAttributes cpu memory =>
    have h1 := decodeString_encodeString cpu (encodeString memory)
    have h2 := decodeString_encodeString memory []
    simp only [List.append_nil] at h2
    simp [marshal, unmarshal, h1, h2]

/-! ### Server startup (part_000: `serveGatewayInsecure`, `serveGatewaySecure`,
`GetHandleOpenapiSpec`, CORS wiring) -/

/-- The security block of the server configuration (`config.ServerConfig`). -/
structure SecurityConfig where
  secure : Bool
  useAuth : Bool
  allowCors : Bool
  allowedOrigins : List String
  allowedHeaders : List String
deriving DecidableEq

/-- The server configuration fields used by the serve entrypoint.
`grpcHostAddress` is `cfg.GetGrpcHostAddress()` and `httpHostAddress` is
`cfg.GetHostAddress()`. -/
structure ServerConfig where
  security : SecurityConfig
  grpcHostAddress : String
  httpHostAddress : String
deriving DecidableEq

/-- Faults of the external calls made during startup, in the order the code
reaches them; `some cause` means the call fails with that underlying error
text, `none` means it succeeds. `httpListen` stands for `net.Listen` on the
HTTP address in secure mode and for the bind step of `http.ListenAndServe`
in insecure mode; `httpServe` is a failure of the serve loop after a
successful bind in secure mode. -/
structure NetEnv where
  sslLoad : Option String
  authCreate : Option String
  grpcListen : Option String
  httpServerBuild : Option String
  httpListen : Option String
  httpServe : Option String
deriving DecidableEq

/-- How a blocking `serveGateway` call ends: still serving (modelled as
`ok`), an error value returned to the caller, or a panic escaping the
function. -/
inductive StartOutcome
  | ok
  | errReturn (msg : String)
  | panicked (cause : String)
deriving DecidableEq

/-- Embeds `errors.Wrapf`: the wrap message followed by the cause. -/
def wrapErr (msg cause : String) : String :=
  msg ++ ": " ++ cause

/-- Embeds `serveGatewayInsecure` (part_000 lines 168-226) up to its failure
structure: auth-context creation errors are returned as-is; a `net.Listen`
failure on the gRPC address returns an error wrapped with the text
"failed to listen on GRPC port: " and that address; a `newHTTPServer`
failure returns its error (wrapped inside with
"error registering admin service"); an `http.ListenAndServe` failure
returns an error wrapped with "failed to Start HTTP Server". -/
def serveGatewayInsecure (cfg : ServerConfig) (env : NetEnv) : StartOutcome :=
  match (if cfg.security.useAuth then env.authCreate else none) with
  | some cause => StartOutcome.errReturn cause
  | none =>
    match env.grpcListen with
    | some cause =>
      StartOutcome.errReturn
        (wrapErr ("failed to listen on GRPC port: " ++ cfg.grpcHostAddress) cause)
    | none =>
      match env.httpServerBuild with
      | some cause =>
        StartOutcome.errReturn (wrapErr "error registering admin service" cause)
      | none =>
        match env.httpListen with
        | some cause =>
          StartOutcome.errReturn (wrapErr "failed to Start HTTP Server" cause)
        | none => StartOutcome.ok

/-- Embeds `serveGatewaySecure` (part_000 lines 242-293) up to its failure
structure: SSL-credential and auth-context errors are returned as-is; a
`newHTTPServer` failure returns its wrapped error; a `net.Listen` failure on
the HTTP address panics (`panic(err)`, line 275); a failure of `srv.Serve`
after a successful bind returns an error wrapped with
"failed to Start HTTP/2 Server". -/
def serveGatewaySecure (cfg : ServerConfig) (env : NetEnv) : StartOutcome :=
  match env.sslLoad with
  | some cause => StartOutcome.errReturn cause
  | none =>
    match (if cfg.security.useAuth then env.authCreate else none) with
    | some cause => StartOutcome.errReturn cause
    | none =>
      match env.httpServerBuild with
      | some cause =>
        StartOutcome.errReturn (wrapErr "error registering admin service" cause)
      | none =>
        match env.httpListen with
        | some cause => StartOutcome.panicked cause
        | none =>
          match env.httpServe with
          | some cause =>
            StartOutcome.errReturn (wrapErr "failed to Start HTTP/2 Server" cause)
          | none => StartOutcome.ok

/-- True when the outcome is a returned error whose message mentions the
given address. -/
def errNamesAddr (o : StartOutcome) (addr : String) : Bool :=
  match o with
  | StartOutcome.errReturn msg => strContains msg addr
  | _ => false

/-! CORS wiring of the insecure HTTP handler (part_000 lines 208-218). -/

/-- The default CORS header allow-list (part_000 line 41). -/
def defaultCorsHeaders : List String := ["Content-Type"]

/-- Options passed to the `handlers.CORS` decorator. -/
structure CorsOptions where
  allowCredentials : Bool
  allowedOrigins : List String
  allowedHeaders : List String
  allowedMethods : List String
deriving DecidableEq

/-- The HTTP handler served on the HTTP address: either the mux itself or
the mux wrapped in a CORS decorator. -/
inductive GatewayHandler
  | plainMux
  | corsWrapped (opts : CorsOptions)
deriving DecidableEq

/-- Embeds the handler selection of `serveGatewayInsecure` (part_000 lines
208-218): with `AllowCors` the mux is wrapped in `handlers.CORS` with
credentials allowed, the configured origins, the default headers appended
with the configured extras, and the fixed method list; otherwise the mux is
served unwrapped. -/
def buildInsecureHandler (sec : SecurityConfig) : GatewayHandler :=
  if sec.allowCors then
    GatewayHandler.corsWrapped
      { allowCredentials := true
        allowedOrigins := sec.allowedOrigins
        allowedHeaders := defaultCorsHeaders ++ sec.allowedHeaders
        allowedMethods := ["GET", "POST", "DELETE", "HEAD", "PUT", "PATCH"] }
  else
    GatewayHandler.plainMux

/-! OpenAPI endpoint (part_000 lines 98-112). -/

/-- Outcome of `flyteService.Asset` for the bundled swagger document. -/
inductive AssetResult
  | loaded (bytes : List Nat)
  | failed (msg : String)
deriving DecidableEq

/-- An HTTP response: the status code written by `WriteHeader` and the body
bytes written afterwards. -/
structure HttpResponse where
  status : Nat
  body : List Nat
deriving DecidableEq

/-- Embeds the handler returned by `GetHandleOpenapiSpec` (part_000 lines
98-112): when the bundled asset loads, write status 200 and the document
bytes; when it is unavailable, log and write status 424
(`http.StatusFailedDependency`) with no body. Totality of this definition
reflects that the handler never panics. -/
def handleOpenapiSpec (asset : AssetResult) : HttpResponse :=
  match asset with
  | AssetResult.failed _ => { status := 424, body := [] }
  | AssetResult.loaded bytes => { status := 200, body := bytes }

/-! ### Example managers used to evaluate the endpoint embeddings -/

/-- A manager whose every call panics during handling. -/
def panickingManager : ExecutionManager where
  createExecution := fun _ _ => MgrOutcome.panic "boom"
  relaunchExecution := fun _ _ => MgrOutcome.panic "boom"
  createWorkflowEvent := fun _ => MgrOutcome.panic "boom"
  getExecution := fun _ => MgrOutcome.panic "boom"
  getExecutionData := fun _ => MgrOutcome.panic "boom"
  listExecutions := fun _ => MgrOutcome.panic "boom"
  terminateExecution := fun _ => MgrOutcome.panic "boom"

/-- A NotFound-class status error. -/
def execNotFound : StatusError :=
  { code := Code.notFound, msg := "execution not found" }

/-- A manager whose every call fails with a NotFound error. -/
def erringManager : ExecutionManager where
  createExecution := fun _ _ => MgrOutcome.err execNotFound
  relaunchExecution := fun _ _ => MgrOutcome.err execNotFound
  createWorkflowEvent := fun _ => MgrOutcome.err execNotFound
  getExecution := fun _ => MgrOutcome.err execNotFound
  getExecutionData := fun _ => MgrOutcome.err execNotFound
  listExecutions := fun _ => MgrOutcome.err execNotFound
  terminateExecution := fun _ => MgrOutcome.err execNotFound

/-- A manager whose every call succeeds. -/
def okManager : ExecutionManager where
  createExecution := fun _ _ => MgrOutcome.ok { dummy := () }
  relaunchExecution := fun _ _ => MgrOutcome.ok { dummy := () }
  createWorkflowEvent := fun _ => MgrOutcome.ok { dummy := () }
  getExecution := fun _ => MgrOutcome.ok { dummy := () }
  getExecutionData := fun _ => MgrOutcome.ok { dummy := () }
  listExecutions := fun _ => MgrOutcome.ok { dummy := () }
  terminateExecution := fun _ => MgrOutcome.ok { dummy := () }

/-- A security block with every toggle off. -/
def plainSecurity : SecurityConfig where
  secure := false
  useAuth := false
  allowCors := false
  allowedOrigins := []
  allowedHeaders := []

/-- An insecure-mode server configuration on localhost addresses. -/
def insecureCfg : ServerConfig where
  security := plainSecurity
  grpcHostAddress := "localhost:8089"
  httpHostAddress := "localhost:8088"

/-- A secure-mode server configuration on localhost addresses. -/
def secureCfg : ServerConfig where
  security := { plainSecurity with secure := true }
  grpcHostAddress := "localhost:8089"
  httpHostAddress := "localhost:8088"

/-- An environment where every startup step succeeds except the bind on the
gRPC address. -/
def envGrpcBindFail : NetEnv where
  sslLoad := none
  authCreate := none
  grpcListen := some "address already in use"
  httpServerBuild := none
  httpListen := none
  httpServe := none

/-- An environment where every startup step succeeds except the bind on the
HTTP address. -/
def envHttpBindFail : NetEnv where
  sslLoad := none
  authCreate := none
  grpcListen := none
  httpServerBuild := none
  httpListen := some "address already in use"
  httpServe := none

/-- Occurrence of the middle summand: a string formed around `b` contains
`b` as a substring. -/
theorem strContains_middle (a b c : String) : strContains (a ++ b ++ c) b = true := by
  rw [strContains, listContains_iff_exists]
  exact ⟨a.toList, c.toList, by simp [String.toList]⟩

/-! ## Claim theorems -/

/-- C1: for every well-formed identity (project and domain non-empty) and
typed override value, Upsert followed by Get with the same identity and
resource type returns a value equal to the original typed override, at
every granularity: project-domain, workflow, and launch-plan. -/
theorem upsert_get_roundtrip (s : Store) (proj dom wf lp rt : String)
    (attrs : MatchingAttributes) (hproj : proj ≠ "") (hdom : dom ≠ "") :
    getProjectDomainAttributes
      (updateProjectDomainAttributes s proj dom rt attrs) proj dom rt = Except.ok attrs ∧
    getWorkflowAttributes
      (updateWorkflowAttributes s proj dom wf rt attrs) proj dom wf rt = Except.ok attrs ∧
    getLaunchPlanAttributes
      (updateLaunchPlanAttributes s proj dom wf lp rt attrs) proj dom wf lp rt = Except.ok attrs := by
  refine ⟨?_, ?_, ?_⟩ <;>
    simp [getProjectDomainAttributes, getWorkflowAttributes, getLaunchPlanAttributes,
      updateProjectDomainAttributes, updateWorkflowAttributes, updateLaunchPlanAttributes,
      Store.fetch, Store.put, unmarshal_marshal]

/-- Witness for C1 at the identity and execution-queue override used by the
manager tests. -/
theorem upsert_get_roundtrip_witness :
    getProjectDomainAttributes
      (updateProjectDomainAttributes Store.empty "project" "domain" "EXECUTION_QUEUE"
        (MatchingAttributes.executionQueueAttributes ["critical"]))
      "project" "domain" "EXECUTION_QUEUE"
      = Except.ok (MatchingAttributes.executionQueueAttributes ["critical"]) ∧
    getWorkflowAttributes
      (updateWorkflowAttributes Store.empty "project" "domain" "workflow" "EXECUTION_QUEUE"
        (MatchingAttributes.executionQueueAttributes ["critical"]))
      "project" "domain" "workflow" "EXECUTION_QUEUE"
      = Except.ok (MatchingAttributes.executionQueueAttributes ["critical"]) ∧
    getLaunchPlanAttributes
      (updateLaunchPlanAttributes Store.empty "project" "domain" "workflow" "launch_plan"
        "EXECUTION_QUEUE" (MatchingAttributes.executionQueueAttributes ["critical"]))
      "project" "domain" "workflow" "launch_plan" "EXECUTION_QUEUE"
      = Except.ok (MatchingAttributes.executionQueueAttributes ["critical"]) :=
  upsert_get_roundtrip Store.empty "project" "domain" "workflow" "launch_plan"
    "EXECUTION_QUEUE" (MatchingAttributes.executionQueueAttributes ["critical"])
    (by decide) (by decide)

/-- C2: the demultiplexer routes a request to the gRPC server's handler iff
its protocol major version is 2 and its Content-Type header contains the
binary-RPC media type application/grpc as a substring; every other request
goes to the HTTP mux handler. -/
theorem grpcHandlerFunc_classification (r : HttpRequest) :
    (grpcHandlerFunc r = Route.grpcServer ↔
      r.protoMajor = 2 ∧
        ∃ l t, r.contentType.toList = l ++ ("application/grpc".toList ++ t)) ∧
    (grpcHandlerFunc r = Route.otherHandler ↔
      ¬(r.protoMajor = 2 ∧
        ∃ l t, r.contentType.toList = l ++ ("application/grpc".toList ++ t))) := by
  have hiff : (r.protoMajor = 2 && strContains r.contentType "application/grpc") = true ↔
      (r.protoMajor = 2 ∧
        ∃ l t, r.contentType.toList = l ++ ("application/grpc".toList ++ t)) := by
    rw [Bool.and_eq_true, decide_eq_true_eq]
    refine and_congr_right fun _ => ?_
    rw [strContains, listContains_iff_exists]
    constructor
    · rintro ⟨l, t, h⟩
      exact ⟨l, t, by simpa [List.append_assoc] using h⟩
    · rintro ⟨l, t, h⟩
      exact ⟨l, t, by simpa [List.append_assoc] using h⟩
  cases hb : (r.protoMajor = 2 && strContains r.contentType "application/grpc") with
  | true =>
    have hp := hiff.mp hb
    have heq : grpcHandlerFunc r = Route.grpcServer := by
      simp [grpcHandlerFunc, hb]
    refine ⟨iff_of_true heq hp, iff_of_false ?_ (fun hn => hn hp)⟩
    rw [heq]
    exact fun h => Route.noConfusion h
  | false =>
    have hp : ¬(r.protoMajor = 2 ∧
        ∃ l t, r.contentType.toList = l ++ ("application/grpc".toList ++ t)) := by
      intro hc
      rw [hiff.mpr hc] at hb
      exact Bool.noConfusion hb
    have heq : grpcHandlerFunc r = Route.otherHandler := by
      simp [grpcHandlerFunc, hb]
    refine ⟨iff_of_false ?_ hp, iff_of_true heq hp⟩
    rw [heq]
    exact fun h => Route.noConfusion h

/-- Witness for C2: an HTTP/2 request with a gRPC content type is routed to
the gRPC server; an HTTP/1 request with the same content type, and an
HTTP/2 request with a JSON content type, are routed to the HTTP mux. -/
theorem grpcHandlerFunc_classification_witness :
    grpcHandlerFunc { protoMajor := 2, contentType := "application/grpc+proto" }
      = Route.grpcServer ∧
    grpcHandlerFunc { protoMajor := 1, contentType := "application/grpc" }
      = Route.otherHandler ∧
    grpcHandlerFunc { protoMajor := 2, contentType := "application/json" }
      = Route.otherHandler :=
  ⟨(grpcHandlerFunc_classification _).1.mpr
      ⟨rfl, [], "+proto".toList, by decide⟩,
   (grpcHandlerFunc_classification _).2.mpr (by rintro ⟨h, -⟩; exact absurd h (by decide)),
   (grpcHandlerFunc_classification _).2.mpr
      (by
        rintro ⟨-, l, t, h⟩
        have : listContains "application/json".toList "application/grpc".toList = true :=
          (listContains_iff_exists _ _).mpr ⟨l, t, by simpa [List.append_assoc] using h⟩
        exact absurd this (by decide))⟩

/-- C3: without authentication the unary interceptor chain is the metrics
timing interceptor alone; with authentication it is exactly metrics timing,
custom metadata extraction, auth verification, audit logging, in that order,
and a call rejected by auth verification never reaches the audit-logging
interceptor and never reaches the handler. -/
theorem interceptor_chain_spec :
    chainedUnaryInterceptors false = [UnaryInterceptor.metricsTiming] ∧
    chainedUnaryInterceptors true =
      [UnaryInterceptor.metricsTiming, UnaryInterceptor.customMetadataExtraction,
       UnaryInterceptor.authVerification, UnaryInterceptor.auditLogging] ∧
    ∀ passes : UnaryInterceptor → Bool,
      passes UnaryInterceptor.authVerification = false →
        UnaryInterceptor.auditLogging ∉ (runChain passes (chainedUnaryInterceptors true)).1 ∧
        (runChain passes (chainedUnaryInterceptors true)).2 = false := by
  refine ⟨rfl, rfl, fun passes h => ?_⟩
  cases hm : passes UnaryInterceptor.metricsTiming <;>
    cases hc : passes UnaryInterceptor.customMetadataExtraction <;>
      simp [chainedUnaryInterceptors, runChain, h, hm, hc]

/-- Witness for C3: a policy that rejects exactly at auth verification runs
the first three interceptors only. -/
theorem interceptor_chain_spec_witness :
    UnaryInterceptor.auditLogging ∉
      (runChain (fun i => !(i = UnaryInterceptor.authVerification))
        (chainedUnaryInterceptors true)).1 ∧
    (runChain (fun i => !(i = UnaryInterceptor.authVerification))
      (chainedUnaryInterceptors true)).2 = false :=
  (interceptor_chain_spec.2.2 (fun i => !(i = UnaryInterceptor.authVerification))
    (by decide))

/-- C4: every execution endpoint rejects a nil request with the
InvalidArgument status and an empty effect trace — in particular the
business-layer manager is never invoked — whatever the manager is. -/
theorem nil_request_rejected (m : ExecutionManager) (requestedAt : Nat) :
    createExecution m requestedAt none = (Except.error nilRequestError, []) ∧
    relaunchExecution m requestedAt none = (Except.error nilRequestError, []) ∧
    createWorkflowEvent m none = (Except.error nilRequestError, []) ∧
    getExecution m none = (Except.error nilRequestError, []) ∧
    getExecutionData m none = (Except.error nilRequestError, []) ∧
    listExecutions m none = (Except.error nilRequestError, []) ∧
    terminateExecution m none = (Except.error nilRequestError, []) ∧
    nilRequestError.code = Code.invalidArgument :=
  ⟨rfl, rfl, rfl, rfl, rfl, rfl, rfl, rfl⟩

/-- C5: for every execution endpoint, a panic raised by the business-layer
manager during handling is caught by the per-call recovery boundary and
converted into an Internal-class error response; the embedding stays total,
so no panic propagates out of the handler. -/
theorem panic_recovered (m : ExecutionManager) :
    (∀ req t msg, m.createExecution req t = MgrOutcome.panic msg →
      createExecution m t (some req) =
        (Except.error { code := Code.internal, msg := msg },
         [TraceEvent.managerInvoked Endpoint.createExecution])) ∧
    (∀ req t msg, m.relaunchExecution req t = MgrOutcome.panic msg →
      relaunchExecution m t (some req) =
        (Except.error { code := Code.internal, msg := msg },
         [TraceEvent.managerInvoked Endpoint.relaunchExecution])) ∧
    (∀ req msg, m.createWorkflowEvent req = MgrOutcome.panic msg →
      createWorkflowEvent m (some req) =
        (Except.error { code := Code.internal, msg := msg },
         [TraceEvent.managerInvoked Endpoint.createWorkflowEvent])) ∧
    (∀ req msg, m.getExecution req = MgrOutcome.panic msg →
      getExecution m (some req) =
        (Except.error { code := Code.internal, msg := msg },
         [TraceEvent.managerInvoked Endpoint.getExecution])) ∧
    (∀ req msg, m.getExecutionData req = MgrOutcome.panic msg →
      getExecutionData m (some req) =
        (Except.error { code := Code.internal, msg := msg },
         [TraceEvent.managerInvoked Endpoint.getExecutionData])) ∧
    (∀ req msg, m.listExecutions req = MgrOutcome.panic msg →
      listExecutions m (some req) =
        (Except.error { code := Code.internal, msg := msg },
         [TraceEvent.managerInvoked Endpoint.listExecutions])) ∧
    (∀ req msg, m.terminateExecution req = MgrOutcome.panic msg →
      terminateExecution m (some req) =
        (Except.error { code := Code.internal, msg := msg },
         [TraceEvent.managerInvoked Endpoint.terminateExecution])) := by
  refine ⟨fun req t msg h => ?_, fun req t msg h => ?_, fun req msg h => ?_,
    fun req msg h => ?_, fun req msg h => ?_, fun req msg h => ?_, fun req msg h => ?_⟩ <;>
    simp [createExecution, relaunchExecution, createWorkflowEvent, getExecution,
      getExecutionData, listExecutions, terminateExecution, h, interceptPanicResult]

/-- Witness for C5: under the all-panicking manager every endpoint returns
the Internal error and the trace stops at the manager call. -/
theorem panic_recovered_witness :
    createExecution panickingManager 0 (some { dummy := () }) =
      (Except.error { code := Code.internal, msg := "boom" },
       [TraceEvent.managerInvoked Endpoint.createExecution]) ∧
    relaunchExecution panickingManager 0 (some { dummy := () }) =
      (Except.error { code := Code.internal, msg := "boom" },
       [TraceEvent.managerInvoked Endpoint.relaunchExecution]) ∧
    createWorkflowEvent panickingManager (some { dummy := () }) =
      (Except.error { code := Code.internal, msg := "boom" },
       [TraceEvent.managerInvoked Endpoint.createWorkflowEvent]) ∧
    getExecution panickingManager (some { dummy := () }) =
      (Except.error { code := Code.internal, msg := "boom" },
       [TraceEvent.managerInvoked Endpoint.getExecution]) ∧
    getExecutionData panickingManager (some { dummy := () }) =
      (Except.error { code := Code.internal, msg := "boom" },
       [TraceEvent.managerInvoked Endpoint.getExecutionData]) ∧
    listExecutions panickingManager (some { dummy := () }) =
      (Except.error { code := Code.internal, msg := "boom" },
       [TraceEvent.managerInvoked Endpoint.listExecutions]) ∧
    terminateExecution panickingManager (some { dummy := () }) =
      (Except.error { code := Code.internal, msg := "boom" },
       [TraceEvent.managerInvoked Endpoint.terminateExecution]) :=
  ⟨(panic_recovered panickingManager).1 _ 0 "boom" rfl,
   (panic_recovered panickingManager).2.1 _ 0 "boom" rfl,
   (panic_recovered panickingManager).2.2.1 _ "boom" rfl,
   (panic_recovered panickingManager).2.2.2.1 _ "boom" rfl,
   (panic_recovered panickingManager).2.2.2.2.1 _ "boom" rfl,
   (panic_recovered panickingManager).2.2.2.2.2.1 _ "boom" rfl,
   (panic_recovered panickingManager).2.2.2.2.2.2 _ "boom" rfl⟩

/-- C6 counterexample: in secure mode a TCP bind failure makes
`serveGatewaySecure` panic (part_000 line 275) instead of returning a
wrapped error identifying the address, so the claim as stated is false. -/
theorem secure_bind_failure_cex :
    serveGatewaySecure secureCfg envHttpBindFail =
      StartOutcome.panicked "address already in use" ∧
    errNamesAddr (serveGatewaySecure secureCfg envHttpBindFail)
      secureCfg.httpHostAddress = false :=
  ⟨rfl, rfl⟩

/-- C6 (amended): in insecure mode a failure to bind the gRPC TCP listener
aborts startup by returning a wrapped error naming the gRPC address, and a
failure of the HTTP ListenAndServe returns a wrapped error whose own text
does not name the address; in secure mode a failure to bind the TCP
listener aborts startup fatally via panic, not by returning a wrapped
error. -/
theorem bind_failure_semantics (cfg : ServerConfig) (env : NetEnv) (cause : String)
    (hauth : env.authCreate = none) :
    (env.grpcListen = some cause →
      serveGatewayInsecure cfg env =
        StartOutcome.errReturn
          (wrapErr ("failed to listen on GRPC port: " ++ cfg.grpcHostAddress) cause) ∧
      errNamesAddr (serveGatewayInsecure cfg env) cfg.grpcHostAddress = true) ∧
    (env.grpcListen = none → env.httpServerBuild = none → env.httpListen = some cause →
      serveGatewayInsecure cfg env =
        StartOutcome.errReturn (wrapErr "failed to Start HTTP Server" cause)) ∧
    (env.sslLoad = none → env.httpServerBuild = none → env.httpListen = some cause →
      serveGatewaySecure cfg env = StartOutcome.panicked cause) := by
  have hA : (if cfg.security.useAuth then env.authCreate else none) = none := by
    cases cfg.security.useAuth <;> simp [hauth]
  refine ⟨fun hg => ⟨?_, ?_⟩, fun hg hb hh => ?_, fun hs hb hh => ?_⟩
  · simp [serveGatewayInsecure, hA, hg]
  · have hmsg : wrapErr ("failed to listen on GRPC port: " ++ cfg.grpcHostAddress) cause =
        "failed to listen on GRPC port: " ++ cfg.grpcHostAddress ++ (": " ++ cause) := by
      rw [wrapErr, String.append_assoc]
    simp only [serveGatewayInsecure, hA, hg, errNamesAddr, hmsg]
    exact strContains_middle "failed to listen on GRPC port: " cfg.grpcHostAddress
      (": " ++ cause)
  · simp [serveGatewayInsecure, hA, hg, hb, hh]
  · simp [serveGatewaySecure, hA, hs, hb, hh]

/-- Witness for C6 (amended) at concrete configurations and failure causes. -/
theorem bind_failure_semantics_witness :
    (serveGatewayInsecure insecureCfg envGrpcBindFail =
      StartOutcome.errReturn
        (wrapErr ("failed to listen on GRPC port: " ++ "localhost:8089")
          "address already in use")) ∧
    (errNamesAddr (serveGatewayInsecure insecureCfg envGrpcBindFail)
      insecureCfg.grpcHostAddress = true) ∧
    (serveGatewaySecure secureCfg envHttpBindFail =
      StartOutcome.panicked "address already in use") := by
  refine ⟨?_, ?_, ?_⟩
  · exact ((bind_failure_semantics insecureCfg envGrpcBindFail
      "address already in use" rfl).1 rfl).1
  · exact ((bind_failure_semantics insecureCfg envGrpcBindFail
      "address already in use" rfl).1 rfl).2
  · exact (bind_failure_semantics secureCfg envHttpBindFail
      "address already in use" rfl).2.2 rfl rfl rfl

/-- C7: with CORS enabled the HTTP handler is the CORS decorator around the
mux, with credentials always allowed, exactly the configured origins, the
default Content-Type header merged with the configured extras, and exactly
the fixed method list GET, POST, DELETE, HEAD, PUT, PATCH; with CORS
disabled the mux is served unwrapped. -/
theorem cors_wiring (sec : SecurityConfig) :
    (sec.allowCors = true →
      buildInsecureHandler sec = GatewayHandler.corsWrapped
        { allowCredentials := true
          allowedOrigins := sec.allowedOrigins
          allowedHeaders := "Content-Type" :: sec.allowedHeaders
          allowedMethods := ["GET", "POST", "DELETE", "HEAD", "PUT", "PATCH"] }) ∧
    (sec.allowCors = false → buildInsecureHandler sec = GatewayHandler.plainMux) := by
  constructor <;> intro h <;>
    simp [buildInsecureHandler, h, defaultCorsHeaders]

/-- Witness for C7: one configuration with CORS on and extra headers, one
with CORS off. -/
theorem cors_wiring_witness :
    buildInsecureHandler
      { secure := false, useAuth := false, allowCors := true,
        allowedOrigins := ["https://example.com"], allowedHeaders := ["X-Custom"] } =
      GatewayHandler.corsWrapped
        { allowCredentials := true
          allowedOrigins := ["https://example.com"]
          allowedHeaders := ["Content-Type", "X-Custom"]
          allowedMethods := ["GET", "POST", "DELETE", "HEAD", "PUT", "PATCH"] } ∧
    buildInsecureHandler
      { secure := false, useAuth := false, allowCors := false,
        allowedOrigins := [], allowedHeaders := [] } = GatewayHandler.plainMux :=
  ⟨(cors_wiring _).1 rfl, (cors_wiring _).2 rfl⟩

/-- C8: the specification-document endpoint answers 200 with the bundled
document body when the asset loads and 424 (failed dependency) when it is
unavailable; the handler is a total function, so it never panics. -/
theorem openapi_endpoint (bytes : List Nat) (msg : String) :
    handleOpenapiSpec (AssetResult.loaded bytes) = { status := 200, body := bytes } ∧
    handleOpenapiSpec (AssetResult.failed msg) = { status := 424, body := [] } :=
  ⟨rfl, rfl⟩

/-- C9: a project-domain-level upsert writes a key with an empty workflow
field while a workflow-level upsert with the same project, domain and
resource type writes a key with the workflow field populated; when the
workflow value is non-empty the two keys differ, and upserting either
record leaves the other's key untouched. -/
theorem granularity_independence (s : Store) (proj dom wf rt : String)
    (a b : MatchingAttributes) (hwf : wf ≠ "") :
    (projectDomainKey proj dom rt).workflow = "" ∧
    (workflowKey proj dom wf rt).workflow = wf ∧
    projectDomainKey proj dom rt ≠ workflowKey proj dom wf rt ∧
    updateProjectDomainAttributes s proj dom rt a (workflowKey proj dom wf rt)
      = s (workflowKey proj dom wf rt) ∧
    updateWorkflowAttributes s proj dom wf rt b (projectDomainKey proj dom rt)
      = s (projectDomainKey proj dom rt) := by
  have hne : projectDomainKey proj dom rt ≠ workflowKey proj dom wf rt := by
    intro h
    exact hwf (congrArg ResourceID.workflow h).symm
  refine ⟨rfl, rfl, hne, ?_, ?_⟩
  · simp only [updateProjectDomainAttributes, Store.put]
    rw [if_neg (Ne.symm hne)]
  · simp only [updateWorkflowAttributes, Store.put]
    rw [if_neg hne]

/-- Witness for C9 at the identities of the manager tests: the two records
coexist after both upserts. -/
theorem granularity_independence_witness :
    projectDomainKey "project" "domain" "EXECUTION_QUEUE" ≠
      workflowKey "project" "domain" "workflow" "EXECUTION_QUEUE" ∧
    updateProjectDomainAttributes Store.empty "project" "domain" "EXECUTION_QUEUE"
        (MatchingAttributes.executionQueueAttributes ["critical"])
        (workflowKey "project" "domain" "workflow" "EXECUTION_QUEUE")
      = Store.empty (workflowKey "project" "domain" "workflow" "EXECUTION_QUEUE") ∧
    updateWorkflowAttributes Store.empty "project" "domain" "workflow" "EXECUTION_QUEUE"
        (MatchingAttributes.executionQueueAttributes ["gpu"])
        (projectDomainKey "project" "domain" "EXECUTION_QUEUE")
      = Store.empty (projectDomainKey "project" "domain" "EXECUTION_QUEUE") :=
  ⟨(granularity_independence Store.empty "project" "domain" "workflow" "EXECUTION_QUEUE"
      (MatchingAttributes.executionQueueAttributes ["critical"])
      (MatchingAttributes.executionQueueAttributes ["gpu"]) (by decide)).2.2.1,
   (granularity_independence Store.empty "project" "domain" "workflow" "EXECUTION_QUEUE"
      (MatchingAttributes.executionQueueAttributes ["critical"])
      (MatchingAttributes.executionQueueAttributes ["gpu"]) (by decide)).2.2.2.1,
   (granularity_independence Store.empty "project" "domain" "workflow" "EXECUTION_QUEUE"
      (MatchingAttributes.executionQueueAttributes ["critical"])
      (MatchingAttributes.executionQueueAttributes ["gpu"]) (by decide)).2.2.2.2⟩

/-- C10: GetExecutionData times the manager call under the `get` metric
object while recording both error and success outcomes under the `getData`
metric object; every other execution endpoint times and accounts outcomes
on one and the same metric object. -/
theorem getExecutionData_metric_split (m : ExecutionManager) :
    (∀ req e, m.getExecutionData req = MgrOutcome.err e →
      (getExecutionData m (some req)).2 =
        [TraceEvent.managerInvoked Endpoint.getExecutionData,
         TraceEvent.timedCall MetricName.get,
         TraceEvent.errorRecorded MetricName.getData]) ∧
    (∀ req r, m.getExecutionData req = MgrOutcome.ok r →
      (getExecutionData m (some req)).2 =
        [TraceEvent.managerInvoked Endpoint.getExecutionData,
         TraceEvent.timedCall MetricName.get,
         TraceEvent.successRecorded MetricName.getData]) ∧
    (∀ req t e, m.createExecution req t = MgrOutcome.err e →
      (createExecution m t (some req)).2 =
        [TraceEvent.managerInvoked Endpoint.createExecution,
         TraceEvent.timedCall MetricName.create,
         TraceEvent.errorRecorded MetricName.create]) ∧
    (∀ req t r, m.createExecution req t = MgrOutcome.ok r →
      (createExecution m t (some req)).2 =
        [TraceEvent.managerInvoked Endpoint.createExecution,
         TraceEvent.timedCall MetricName.create,
         TraceEvent.successRecorded MetricName.create]) ∧
    (∀ req t e, m.relaunchExecution req t = MgrOutcome.err e →
      (relaunchExecution m t (some req)).2 =
        [TraceEvent.managerInvoked Endpoint.relaunchExecution,
         TraceEvent.timedCall MetricName.relaunch,
         TraceEvent.errorRecorded MetricName.relaunch]) ∧
    (∀ req t r, m.relaunchExecution req t = MgrOutcome.ok r →
      (relaunchExecution m t (some req)).2 =
        [TraceEvent.managerInvoked Endpoint.relaunchExecution,
         TraceEvent.timedCall MetricName.relaunch,
         TraceEvent.successRecorded MetricName.relaunch]) ∧
    (∀ req e, m.createWorkflowEvent req = MgrOutcome.err e →
      (createWorkflowEvent m (some req)).2 =
        [TraceEvent.managerInvoked Endpoint.createWorkflowEvent,
         TraceEvent.timedCall MetricName.createEvent,
         TraceEvent.errorRecorded MetricName.createEvent]) ∧
    (∀ req r, m.createWorkflowEvent req = MgrOutcome.ok r →
      (createWorkflowEvent m (some req)).2 =
        [TraceEvent.managerInvoked Endpoint.createWorkflowEvent,
         TraceEvent.timedCall MetricName.createEvent,
         TraceEvent.successRecorded MetricName.createEvent]) ∧
    (∀ req e, m.getExecution req = MgrOutcome.err e →
      (getExecution m (some req)).2 =
        [TraceEvent.managerInvoked Endpoint.getExecution,
         TraceEvent.timedCall MetricName.get,
         TraceEvent.errorRecorded MetricName.get]) ∧
    (∀ req r, m.getExecution req = MgrOutcome.ok r →
      (getExecution m (some req)).2 =
        [TraceEvent.managerInvoked Endpoint.getExecution,
         TraceEvent.timedCall MetricName.get,
         TraceEvent.successRecorded MetricName.get]) ∧
    (∀ req e, m.listExecutions req = MgrOutcome.err e →
      (listExecutions m (some req)).2 =
        [TraceEvent.managerInvoked Endpoint.listExecutions,
         TraceEvent.timedCall MetricName.list,
         TraceEvent.errorRecorded MetricName.list]) ∧
    (∀ req r, m.listExecutions req = MgrOutcome.ok r →
      (listExecutions m (some req)).2 =
        [TraceEvent.managerInvoked Endpoint.listExecutions,
         TraceEvent.timedCall MetricName.list,
         TraceEvent.successRecorded MetricName.list]) ∧
    (∀ req e, m.terminateExecution req = MgrOutcome.err e →
      (terminateExecution m (some req)).2 =
        [TraceEvent.managerInvoked Endpoint.terminateExecution,
         TraceEvent.timedCall MetricName.terminate,
         TraceEvent.errorRecorded MetricName.terminate]) ∧
    (∀ req r, m.terminateExecution req = MgrOutcome.ok r →
      (terminateExecution m (some req)).2 =
        [TraceEvent.managerInvoked Endpoint.terminateExecution,
         TraceEvent.timedCall MetricName.terminate,
         TraceEvent.successRecorded MetricName.terminate]) := by
  refine ⟨fun req e h => ?_, fun req r h => ?_, fun req t e h => ?_, fun req t r h => ?_,
    fun req t e h => ?_, fun req t r h => ?_, fun req e h => ?_, fun req r h => ?_,
    fun req e h => ?_, fun req r h => ?_, fun req e h => ?_, fun req r h => ?_,
    fun req e h => ?_, fun req r h => ?_⟩ <;>
    simp [createExecution, relaunchExecution, createWorkflowEvent, getExecution,
      getExecutionData, listExecutions, terminateExecution, h, transformAndRecordError]

/-- Witness for C10: under the all-erring and all-succeeding managers,
GetExecutionData produces a trace timed on `get` with outcomes on
`getData`, and GetExecution times and accounts on `get` alone. -/
theorem getExecutionData_metric_split_witness :
    (getExecutionData erringManager (some { dummy := () })).2 =
      [TraceEvent.managerInvoked Endpoint.getExecutionData,
       TraceEvent.timedCall MetricName.get,
       TraceEvent.errorRecorded MetricName.getData] ∧
    (getExecutionData okManager (some { dummy := () })).2 =
      [TraceEvent.managerInvoked Endpoint.getExecutionData,
       TraceEvent.timedCall MetricName.get,
       TraceEvent.successRecorded MetricName.getData] ∧
    (getExecution erringManager (some { dummy := () })).2 =
      [TraceEvent.managerInvoked Endpoint.getExecution,
       TraceEvent.timedCall MetricName.get,
       TraceEvent.errorRecorded MetricName.get] ∧
    (getExecution okManager (some { dummy := () })).2 =
      [TraceEvent.managerInvoked Endpoint.getExecution,
       TraceEvent.timedCall MetricName.get,
       TraceEvent.successRecorded MetricName.get] ∧
    (createExecution erringManager 0 (some { dummy := () })).2 =
      [TraceEvent.managerInvoked Endpoint.createExecution,
       TraceEvent.timedCall MetricName.create,
       TraceEvent.errorRecorded MetricName.create] :=
  ⟨(getExecutionData_metric_split erringManager).1 _ execNotFound rfl,
   (getExecutionData_metric_split okManager).2.1 _ { dummy := () } rfl,
   (getExecutionData_metric_split erringManager).2.2.2.2.2.2.2.2.1 _ execNotFound rfl,
   (getExecutionData_metric_split okManager).2.2.2.2.2.2.2.2.2.1 _ { dummy := () } rfl,
   (getExecutionData_metric_split erringManager).2.2.1 _ 0 execNotFound rfl⟩

end FlyteAdmin
